import Mathlib

/-!
Verification of the AliExpress price-checker repository.

Python strings are modelled as `List Char`, Python floats as `ℚ`
(every decimal numeral the scraper parses is exact in `ℚ`), and
fallible Python code as `Except PyExc _` / `Option _`.  All definitions
are shallow embeddings of the functions in `src/`, translated statement
by statement from the Python source.
-/

namespace AliExpress

/-- Python strings, modelled as lists of characters. -/
abbrev PyStr := List Char

/-- The exceptions that the embedded code can raise.  Covers both the
custom exceptions of `src/scraper/exceptions.py` and the builtin /
third-party exceptions the code interacts with.  Payloads are not
tracked. -/
inductive PyExc
  | typeError
  | nameError
  | attributeError
  | valueError
  | indexError
  | invalidCountry
  | invalidCurrency
  | invalidXpathNav
  | invalidClassNameNav
  | invalidIdNav
  | invalidTagNameNav
  | itemPriceNotFound
  | shippingPriceNotFound
  | connectionError
  | noSuchElement
  | elementClickIntercepted
  | elementNotInteractable
  | timeout
  deriving DecidableEq, Repr

/-! ## `Scraper.sanitizeURL` (src/scraper/scraper.py, lines 378-389)

```python
index = url.find('?')
if index >= 0:
    return url[:index]
return url
```
`str.find` returns the index of the first occurrence or `-1`. -/

/-- `str.find(c)`: index of the first occurrence of the character, or
`none` where Python returns `-1`. -/
def strFind (s : PyStr) (c0 : Char) : Option ℕ :=
  match s with
  | [] => none
  | c :: cs => if c = c0 then some 0 else (strFind cs c0).map (· + 1)

/-- Embedding of `Scraper.sanitizeURL`: `url.find('?')` is `strFind`,
and `url[:index]` is `List.take index`. -/
def sanitizeURL (url : PyStr) : PyStr :=
  match strFind url '?' with
  | some index => url.take index
  | none => url

/-! ## `Scraper.convertPriceToFloat` (src/scraper/scraper.py, lines 368-376)

```python
pattern = '([\d.,]+)'
return float(re.search(pattern, price).groups()[0])
```
`re.search` finds the first (maximal, since `+` is greedy) run of
characters in the class `[\d.,]`; if there is none it returns `None`
and `.groups()` raises `AttributeError`; `float` raises `ValueError`
on strings that are not well-formed numerals (e.g. containing a comma
or two periods). -/

/-- A character matched by the regex class `[\d.,]`. -/
def priceChar (c : Char) : Bool := c.isDigit || c = '.' || c = ','

/-- First maximal run of `priceChar`s in a string: what
`re.search('([\d.,]+)', price)` captures, `none` when there is no match. -/
def firstPriceRun (s : PyStr) : Option PyStr :=
  match s.dropWhile (fun c => !priceChar c) with
  | [] => none
  | rest => some (rest.takeWhile priceChar)

/-- Numeric value of a digit character. -/
def digitVal (c : Char) : ℕ := c.toNat - 48

/-- Value of a (big-endian) digit string, `0` for the empty string. -/
def digitsVal (l : PyStr) : ℕ := l.foldl (fun a c => 10 * a + digitVal c) 0

/-- Value of a decimal numeral `a.b` (or plain `a`): integer part plus
fractional part. -/
def numeralValue (t : PyStr) : ℚ :=
  let a := t.takeWhile (fun c => c ≠ '.')
  let b := (t.dropWhile (fun c => c ≠ '.')).drop 1
  (digitsVal a : ℚ) + (digitsVal b : ℚ) / 10 ^ b.length

/-- Embedding of Python `float` on the strings reachable here (all of
whose characters are digits, periods or commas): it succeeds exactly on
well-formed decimal numerals — at least one digit, no comma, at most one
period — and raises `ValueError` otherwise. -/
def pyFloat (t : PyStr) : Except PyExc ℚ :=
  if t.any (fun c => !(c.isDigit || c = '.')) then .error .valueError
  else if !t.any Char.isDigit then .error .valueError
  else if 1 < t.count '.' then .error .valueError
  else .ok (numeralValue t)

/-- Embedding of `Scraper.convertPriceToFloat`: take the first maximal
`[\d.,]` run (raising `AttributeError` on `None.groups()` when there is
no match) and convert it with `float`. -/
def convertPriceToFloat (price : PyStr) : Except PyExc ℚ :=
  match firstPriceRun price with
  | none => .error .attributeError
  | some t => pyFloat t

/-- A well-formed decimal numeral: at least one digit, only digits and
periods, at most one period. -/
def wellFormedNumeral (t : PyStr) : Bool :=
  t.any Char.isDigit && t.all (fun c => c.isDigit || c = '.') && t.count '.' ≤ 1

/-! ## The exception classes of `src/scraper/exceptions.py`

The module defines exactly six classes.  Their `__init__` keyword
parameters (besides `self`) are taken verbatim from the source; note
that none of the navigation exceptions accepts a `url` parameter, and
that `InvalidIdNavigationException` / `InvalidTagNameNavigationException`
are referenced by `src/scraper/scraperutils.py` and `src/scraper/driver.py`
but are nowhere defined.

A Python call `Cls(k1=v1, ...)` first resolves the name `Cls`
(`NameError` if it is unbound) and then binds the keyword arguments
against `__init__` (`TypeError` on an unexpected keyword). -/

/-- One exception class of `exceptions.py`: its name, the keyword
parameters its `__init__` accepts, and the `PyExc` value an instance
represents. -/
structure ExcClass where
  clsName : String
  initParams : List String
  exc : PyExc
  deriving DecidableEq, Repr

/-- The classes defined in `src/scraper/exceptions.py`, with their
`__init__` signatures copied from the source. -/
def exceptionsModule : List ExcClass :=
  [ ⟨"InvalidCountryException", ["country", "message"], .invalidCountry⟩,
    ⟨"InvalidCurrencyException", ["currency", "message"], .invalidCurrency⟩,
    ⟨"InvalidXpathNavigationException", ["xpath", "message", "elementName"], .invalidXpathNav⟩,
    ⟨"InvalidClassNameNavigationException", ["className", "message", "elementName"], .invalidClassNameNav⟩,
    ⟨"ItemPriceNotFoundException", ["url", "message", "classes", "xpaths"], .itemPriceNotFound⟩,
    ⟨"ShippingPriceNotFoundException", ["url", "message", "classes", "xpaths"], .shippingPriceNotFound⟩ ]

/-- Python semantics of evaluating `Cls(kw1=..., kw2=..., ...)` against
the classes of `exceptions.py`: `NameError` when the class name is not
defined, `TypeError` when a passed keyword is not an `__init__`
parameter, otherwise the constructed exception instance. -/
def constructExc (clsName : String) (kwargs : List String) : Except PyExc PyExc :=
  match exceptionsModule.find? (fun c => c.clsName = clsName) with
  | none => .error .nameError
  | some c =>
      if kwargs.all (fun k => c.initParams.contains k) then .ok c.exc
      else .error .typeError

/-- Evaluating `Cls(...)` in a `raise Cls(...)` statement: the result is
the constructed exception when construction succeeds, and the
construction-time error (`NameError` / `TypeError`) when it does not.
Either way an exception is raised. -/
def raiseExc (clsName : String) (kwargs : List String) : PyExc :=
  match constructExc clsName kwargs with
  | .ok e => e
  | .error e => e

/-! ## `scraperutils.getElement` (src/scraper/scraperutils.py, lines 38-65)

```python
try:
    elem = parent.find_element(locatorMethod, locatorValue)
except NoSuchElementException as e:
    exceptions = {
        By.XPATH : InvalidXpathNavigationException(url=url, xpath=locatorValue, elementName=elementName),
        By.CLASS_NAME : InvalidClassNameNavigationException(url=url, className=locatorValue, elementName=elementName),
        By.ID : InvalidIdNavigationException(url=url, id=locatorValue, elementName=elementName),
        By.TAG_NAME : InvalidTagNameNavigationException(url=url, tagName=locatorValue, elementName=elementName),
    }
    raise exceptions[locatorMethod] from e
```
The dict literal evaluates all four constructor calls in order before
the lookup, so whatever the first call raises propagates. -/

/-- The four locator methods used with `getElement`. -/
inductive By
  | xpath
  | className
  | id
  | tagName
  deriving DecidableEq, Repr

/-- Evaluation of the dict literal inside `getElement`'s
`except NoSuchElementException` handler: each entry's constructor call
is evaluated in source order; the first construction-time exception
propagates. -/
def navExceptionDict : Except PyExc (By → PyExc) := do
  let e1 ← constructExc "InvalidXpathNavigationException" ["url", "xpath", "elementName"]
  let e2 ← constructExc "InvalidClassNameNavigationException" ["url", "className", "elementName"]
  let e3 ← constructExc "InvalidIdNavigationException" ["url", "id", "elementName"]
  let e4 ← constructExc "InvalidTagNameNavigationException" ["url", "tagName", "elementName"]
  .ok (fun m => match m with
                | .xpath => e1
                | .className => e2
                | .id => e3
                | .tagName => e4)

/-- Embedding of `scraperutils.getElement`.  `found` is the result of
`parent.find_element(locatorMethod, locatorValue)`: `some e` when the
element exists, `none` when `NoSuchElementException` is raised (the
locator value, url and element name only flow into exception payloads,
which are not tracked). -/
def getElement {α : Type} (found : Option α) (locatorMethod : By) : Except PyExc α :=
  match found with
  | some e => .ok e
  | none =>
      match navExceptionDict with
      | .error e => .error e
      | .ok d => .error (d locatorMethod)

/-! ## `Driver.closePopups` (src/scraper/driver.py, lines 206-234)

```python
classes = {
    'cookies': 'btn-accept',
    'notifications': '_24EHh',
    'welcome': 'btn-close',
}
for popup, className in classes.items():
    try:
        WebDriverWait(driver, 3).until(EC.presence_of_element_located((By.CLASS_NAME, className)))
        driver.find_element(By.CLASS_NAME, className).click()
    except ElementClickInterceptedException:
        raise ElementClickInterceptedException(f'element with name {popup} and class {className} click intercepted.')
    except (NoSuchElementException, ElementNotInteractableException, TimeoutException):
        logging.info(...)
```
Python dicts iterate in insertion order, so the popups are processed
cookies, notifications, welcome.  `ElementClickInterceptedException` is
a selenium class whose constructor accepts a message, so the re-raise
succeeds. -/

/-- The three popups `closePopups` handles, in the iteration order of
the `classes` dict. -/
inductive Popup
  | cookies
  | notifications
  | welcome
  deriving DecidableEq, Repr

/-- How one popup behaves when `closePopups` processes it:
`present` — the wait finds the close button and the click succeeds;
`absentOrTimeout` — `NoSuchElementException` or `TimeoutException`;
`notInteractable` — the click raises `ElementNotInteractableException`;
`intercepted` — the click raises `ElementClickInterceptedException`. -/
inductive PopupBehavior
  | present
  | absentOrTimeout
  | notInteractable
  | intercepted
  deriving DecidableEq, Repr

/-- Seconds given to each `WebDriverWait` in `closePopups`. -/
def closePopupsWaitSeconds : ℕ := 3

/-- One iteration of the `closePopups` loop body. -/
def closeOnePopup (b : PopupBehavior) : Except PyExc Unit :=
  match b with
  | .present => .ok ()
  | .intercepted => .error .elementClickIntercepted
  | .absentOrTimeout => .ok ()
  | .notInteractable => .ok ()

/-- Embedding of `Driver.closePopups`: process the three popups in dict
order, propagating the first re-raised exception. -/
def closePopups (b : Popup → PopupBehavior) : Except PyExc Unit := do
  closeOnePopup (b .cookies)
  closeOnePopup (b .notifications)
  closeOnePopup (b .welcome)

/-! ## `SheetManager` (src/sheetManager/sheet_manager.py)

A worksheet is modelled by its first three columns, as returned by
`worksheet.col_values(1..3)`: the list of non-empty-suffix-trimmed cell
values of the column, 0-indexed (row `r` of the sheet is index `r-1`).
Python truthiness of a cell string is non-emptiness. -/

/-- A worksheet: URL column (`col_values(1)`), tracking column
(`col_values(2)`) and price column (`col_values(3)`). -/
structure Sheet where
  col1 : List PyStr
  col2 : List PyStr
  col3 : List PyStr
  deriving Repr

/-- Python `while len(l) < n: l.append(x)` — pad `l` to length at least
`n` with `x` (longer lists are left alone). -/
def padTo {α : Type} (l : List α) (n : ℕ) (x : α) : List α :=
  l ++ List.replicate (n - l.length) x

/-- The filtering comprehension `[a for a, price in zip(l, prices) if not price]`. -/
def keepEmptyPrice {α : Type} (l : List α) (prices : List PyStr) : List α :=
  (l.zip prices).filterMap (fun p => if p.2 = [] then some p.1 else none)

/-- Embedding of `SheetManager.getItemUrls` (lines 26-43):

```python
all_urls = self.worksheet.col_values(1)[3:]
prices = self.worksheet.col_values(3)[3:]
urls = [url for url, price in zip(all_urls, prices) if not price]
urls.extend(all_urls[len(prices):])
return urls
``` -/
def getItemUrls (sh : Sheet) : List PyStr :=
  let all_urls := sh.col1.drop 3
  let prices := sh.col3.drop 3
  keepEmptyPrice all_urls prices ++ all_urls.drop prices.length

/-- Embedding of `SheetManager.getItemUrlsAndTracking` (lines 45-81):

```python
all_urls = self.worksheet.col_values(1)[3:]
all_trackings = [bool(i) for i in self.worksheet.col_values(2)[3:]]
urlNum = len(all_urls)
if len(all_trackings) < urlNum:
    while len(all_trackings) < urlNum: all_trackings.append(False)
prices = self.worksheet.col_values(3)[3:]
if len(prices) < urlNum:
    while len(prices) < urlNum: prices.append('')
urls = [url for url, price in zip(all_urls, prices) if not price]
trackings = [tracking for tracking, price in zip(all_trackings, prices) if not price]
return {'urls': urls, 'trackings': trackings}
``` -/
def getItemUrlsAndTracking (sh : Sheet) : List PyStr × List Bool :=
  let all_urls := sh.col1.drop 3
  let all_trackings := (sh.col2.drop 3).map (fun s => !s.isEmpty)
  let urlNum := all_urls.length
  let all_trackings := padTo all_trackings urlNum false
  let prices := padTo (sh.col3.drop 3) urlNum []
  (keepEmptyPrice all_urls prices, keepEmptyPrice all_trackings prices)

/-! ## The item page, as the scraper observes it

`Scraper.scrapeURL` (src/scraper/scraper.py) interacts with the page
only through element presence and element text for a fixed set of CSS
classes; a page is therefore modelled by those observations.  Clicks
and javascript execution have no observable effect on what the scraper
subsequently reads in this model, so they are modelled as succeeding. -/

/-- An AliExpress item page, seen through the CSS classes the scraper
queries.  `Option PyStr` fields are element text when an element with
the class is found, `none` when `find_element` raises
`NoSuchElementException`. -/
structure Page where
  /-- an element of class `not-found-page` is present -/
  notFoundPage : Bool
  /-- an element of class `next-message-content` (the "item unavailable"
  message) is present -/
  nextMessageContent : Bool
  /-- the wait for the `dynamic-shipping` parent element succeeds -/
  dynamicShippingLoaded : Bool
  /-- an element of class `dynamic-shipping-unreachable` is present -/
  dynamicShippingUnreachable : Bool
  /-- number of `sku-property-list` elements (item property lists) -/
  skuListCount : ℕ
  /-- the wait for the `comet-btn` (more options) button succeeds -/
  cometBtnLoaded : Bool
  /-- the wait for a `dynamic-shipping-mark` list element succeeds -/
  shippingMarkLoaded : Bool
  /-- texts of the `dynamic-shipping-mark` shipping options -/
  shippingOptionTexts : List PyStr
  /-- text of the `uniform-banner-box-price` element, if present -/
  uniformBannerBoxPrice : Option PyStr
  /-- text of the `product-price-value` element, if present -/
  productPriceValue : Option PyStr
  /-- text of the `dynamic-shipping` element, if present -/
  dynamicShippingText : Option PyStr
  deriving Repr

/-- `str.replace(',', '.')`. -/
def replaceCommas (s : PyStr) : PyStr :=
  s.map (fun c => if c = ',' then '.' else c)

/-- Whether `pat` occurs as a contiguous substring of `s`. -/
def listContainsSub (s pat : PyStr) : Bool :=
  match s with
  | [] => pat.isEmpty
  | _ :: rest => List.isPrefixOf pat s || listContainsSub rest pat

/-- `re.search('Free Shipping', s)` on a literal pattern: substring
containment. -/
def containsFreeShipping (s : PyStr) : Bool :=
  listContainsSub s ("Free Shipping".toList)

/-- Embedding of `Scraper.checkPageAvailability` (lines 103-118): true
iff no `not-found-page` element is present. -/
def checkPageAvailability (p : Page) : Bool := !p.notFoundPage

/-- Embedding of `Scraper.checkAvailability` (lines 120-171).  The
first level calls `utils.getElement` for the `next-message-content`
class and catches only `InvalidClassNameNavigationException`; the
second level waits for the `dynamic-shipping` parent — re-raising
`InvalidClassNameNavigationException(className=..., elementName=..., url=...)`
on timeout — and then looks for `dynamic-shipping-unreachable`. -/
def checkAvailability (p : Page) : Except PyExc Bool :=
  match getElement (if p.nextMessageContent then some () else none) By.className with
  | .ok _ => .ok false
  | .error e =>
      if e = .invalidClassNameNav then
        -- `except InvalidClassNameNavigationException: pass`, then the second level
        if !p.dynamicShippingLoaded then
          .error (raiseExc "InvalidClassNameNavigationException" ["className", "elementName", "url"])
        else if p.dynamicShippingUnreachable then .ok false
        else .ok true
      else .error e

/-- Embedding of `Scraper.waitMoreOptionsButton` (lines 225-237): on
wait failure it executes
`raise InvalidClassNameNavigationException(url=..., className=..., elementName=...)`. -/
def waitMoreOptionsButton (p : Page) : Except PyExc Unit :=
  if p.cometBtnLoaded then .ok ()
  else .error (raiseExc "InvalidClassNameNavigationException" ["url", "className", "elementName"])

/-- The `for list in lists` loop of `Scraper.selectFirstOptions`: each
`sku-property-list` iteration clicks the first enabled option (modelled
as succeeding) and then calls `waitMoreOptionsButton`. -/
def selectFirstOptionsLoop (p : Page) : ℕ → Except PyExc Unit
  | 0 => .ok ()
  | n + 1 => do
      waitMoreOptionsButton p
      selectFirstOptionsLoop p n

/-- Embedding of `Scraper.selectFirstOptions` (lines 173-223). -/
def selectFirstOptions (p : Page) : Except PyExc Unit :=
  selectFirstOptionsLoop p p.skuListCount

/-- Embedding of `Scraper.getItemPriceString` (lines 245-271): try the
classes `uniform-banner-box-price` then `product-price-value`, breaking
at the first element found (whatever its text); raise
`ItemPriceNotFoundException(url=..., classes=...)` when the collected
string is empty. -/
def getItemPriceString (p : Page) : Except PyExc PyStr :=
  let itemPriceString :=
    match p.uniformBannerBoxPrice with
    | some t => t
    | none =>
        match p.productPriceValue with
        | some t => t
        | none => []
  if itemPriceString = [] then .error (raiseExc "ItemPriceNotFoundException" ["url", "classes"])
  else .ok itemPriceString

/-- Embedding of `Scraper.getShippingPriceString` (lines 273-298): the
single class `dynamic-shipping`; raise
`ShippingPriceNotFoundException(url=..., classes=...)` when the
collected string is empty. -/
def getShippingPriceString (p : Page) : Except PyExc PyStr :=
  let shippingPriceString :=
    match p.dynamicShippingText with
    | some t => t
    | none => []
  if shippingPriceString = [] then .error (raiseExc "ShippingPriceNotFoundException" ["url", "classes"])
  else .ok shippingPriceString

/-- Embedding of `Scraper.getItemPrice` (lines 239-243):
`convertPriceToFloat(getItemPriceString().replace(',', '.'))`. -/
def getItemPrice (p : Page) : Except PyExc ℚ := do
  let s ← getItemPriceString p
  convertPriceToFloat (replaceCommas s)

/-- The text `'Tracking Available'` compared against shipping options. -/
def trackingAvailableText : PyStr := "Tracking Available".toList

/-- Embedding of `Scraper.setShippingTracking` (lines 300-366): wait
for the `comet-btn` button (raising with a `url=` keyword on failure),
click it, wait for a `dynamic-shipping-mark` element (likewise), click
the first option with text `'Tracking Available'`, or — when none has —
`shippingOptions[0].click()`, an `IndexError` when the list is empty. -/
def setShippingTracking (p : Page) : Except PyExc Unit := do
  if !p.cometBtnLoaded then
    throw (raiseExc "InvalidClassNameNavigationException" ["url", "className", "elementName"])
  let _ ← getElement (if p.cometBtnLoaded then some () else none) By.className
  if !p.shippingMarkLoaded then
    throw (raiseExc "InvalidClassNameNavigationException" ["url", "className", "elementName"])
  let opts := p.shippingOptionTexts
  if opts.any (fun t => t = trackingAvailableText) then pure ()
  else if opts.isEmpty then throw .indexError
  else pure ()

/-- Embedding of the body of `Scraper.scrapeURL` (lines 47-101), i.e.
the `try` block of one attempt, after `driver.get(url)` succeeded. -/
def scrapeURLBody (p : Page) (tracking : Bool) : Except PyExc (ℚ × ℚ) := do
  if !checkPageAvailability p then return (0, 0)
  let avail ← checkAvailability p
  if !avail then return (0, 0)
  selectFirstOptions p
  let itemPrice ← getItemPrice p
  if tracking then setShippingTracking p else pure ()
  let sRaw ← getShippingPriceString p
  let shippingPriceString := replaceCommas sRaw
  let shippingPrice ←
    if containsFreeShipping shippingPriceString then pure (0 : ℚ)
    else convertPriceToFloat shippingPriceString
  return (itemPrice, shippingPrice)

/-! ## The retry wrapper of `Scraper.scrapeURL`

```python
except ConnectionError as e:
    if self.retryCount >= self.RETRIES:
        logging.error(f'Retried {self.retryCount} times. Error occured at last try: {e}')
    logging.error('There was an error in the connection. Resetting driver and retrying...')
    self.retryCount += 1
    self.resetDriver()
    return self.scrapeURL(url, tracking)
# reset retry count if successful
self.retryCount = 0
```
The `retryCount >= RETRIES` test only logs: the retry happens
unconditionally.  Each attempt is abstracted as an outcome (the body
either raises `ConnectionError` somewhere — from `driver.get` or the
element queries' HTTP transport — or runs to a result), and the
recursion is run with explicit fuel: `none` means the recursion did not
finish within the given fuel. -/

/-- `Driver.RETRIES` (src/scraper/driver.py, line 48). -/
def RETRIES : ℕ := 5

/-- Outcome of one attempt of the `try` block of `scrapeURL`. -/
inductive AttemptOutcome
  | connError
  | result (r : Except PyExc (ℚ × ℚ))

/-- Fuelled embedding of `scrapeURL`'s retry recursion: `attempt n` is
the outcome of the `n`-th attempt, `retryCount` the current value of
`self.retryCount`.  Returns the result together with the final
`retryCount` (`0` after a success, unchanged when an exception
propagates), or `none` when the fuel runs out. -/
def scrapeURLWithRetries (attempt : ℕ → AttemptOutcome) (retryCount idx : ℕ) :
    ℕ → Option (Except PyExc (ℚ × ℚ) × ℕ)
  | 0 => none
  | fuel + 1 =>
      match attempt idx with
      | .result (.ok r) => some (.ok r, 0)
      | .result (.error e) => some (.error e, retryCount)
      | .connError => scrapeURLWithRetries attempt (retryCount + 1) (idx + 1) fuel

/-! ## `App.on_click` (src/ui/app.py, lines 163-240) -/

/-- The attributes `class SheetManager` defines
(src/sheetManager/sheet_manager.py): there is no `getTracking`. -/
def sheetManagerMethods : List String :=
  ["getItemUrls", "getItemUrlsAndTracking", "itemPriceCells", "shipPriceCells", "write"]

/-- The call `sh.getTracking()` in `on_click`: `SheetManager` defines
no attribute `getTracking` (see `sheetManagerMethods`), so the lookup
raises `AttributeError`; the `ok` branch is unreachable. -/
def getTrackingCall : Except PyExc (List Bool) :=
  if sheetManagerMethods.contains "getTracking" then .ok [] else .error .attributeError

/-- A worksheet cell, e.g. `C4`. -/
structure Cell where
  col : Char
  row : ℕ
  deriving DecidableEq, Repr

/-- `worksheet.acell` value of row `r` (1-based) in a column. -/
def cellValue (col : List PyStr) (r : ℕ) : PyStr := col.getD (r - 1) []

/-- The search step of the `SheetManager.itemPriceCells` generator
(lines 83-94): the first row `≥ start` whose column-C cell is empty.
Rows beyond the stored column are empty, so the search terminates. -/
def nextEmptyPriceRow (col3 : List PyStr) (start : ℕ) : ℕ :=
  if cellValue col3 start = [] then start
  else nextEmptyPriceRow col3 (start + 1)
termination_by col3.length + 1 - start
decreasing_by
  rename_i h
  have hlt : start - 1 < col3.length := by
    by_contra hle
    exact h (List.getD_eq_default _ _ (le_of_not_lt hle))
  omega

/-- The first `k` rows yielded by the `itemPriceCells` generator,
starting the scan at row `start` (the generator starts at row 4). -/
def itemPriceCellRows (col3 : List PyStr) : ℕ → ℕ → List ℕ
  | 0, _ => []
  | k + 1, start =>
      let r := nextEmptyPriceRow col3 start
      r :: itemPriceCellRows col3 k (r + 1)

/-- The `scraperExceptions` tuple caught inside `on_click`'s loop:
`(InvalidXpathNavigationException, InvalidClassNameNavigationException,
ItemPriceNotFoundException, ShippingPriceNotFoundException)`. -/
def scraperExceptionsTuple : List PyExc :=
  [.invalidXpathNav, .invalidClassNameNav, .itemPriceNotFound, .shippingPriceNotFound]

/-- The url-feeding loop of `on_click`: for each
`(url, tracking, (itemCell, shipCell))` triple, scrape and write both
prices; on an exception from the `scraperExceptions` tuple record the
url in `error_items` and continue; re-raise anything else. -/
def scrapeLoop (scrape : PyStr → Bool → Except PyExc (ℚ × ℚ)) :
    List (PyStr × Bool × ℕ) → List (Cell × ℚ) → List PyStr →
    Except PyExc (List (Cell × ℚ) × List PyStr)
  | [], writes, errs => .ok (writes.reverse, errs.reverse)
  | (url, tr, row) :: rest, writes, errs =>
      match scrape url tr with
      | .ok (itemPrice, shipPrice) =>
          scrapeLoop scrape rest ((⟨'D', row⟩, shipPrice) :: (⟨'C', row⟩, itemPrice) :: writes) errs
      | .error e =>
          if scraperExceptionsTuple.contains e then scrapeLoop scrape rest writes (url :: errs)
          else .error e

/-- What a run of `on_click` observably does. -/
inductive OnClickOutcome
  /-- one of the early `return None` paths was taken (no url entered,
  bad sheet url, no pending urls, or driver setup failure) -/
  | returnedNone
  /-- the loop ran to the end with these spreadsheet writes (in order)
  and these urls recorded in `error_items` -/
  | completed (writes : List (Cell × ℚ)) (errorItems : List PyStr)
  /-- an uncaught exception propagated out of `on_click` -/
  | raised (e : PyExc)
  deriving Repr

/-- Embedding of `App.on_click`.  `sheetLookup` is the result of the
`SheetManager` construction (`none` for `SpreadsheetNotFound` /
`NoValidUrlKeyFound`), `driverOk` whether the `Scraper` construction
succeeds, and `scrape` the behavior of `scr.scrapeURL` per url. -/
def on_click (sheetUrl : PyStr) (sheetLookup : Option Sheet) (driverOk : Bool)
    (scrape : PyStr → Bool → Except PyExc (ℚ × ℚ)) : OnClickOutcome :=
  if sheetUrl.isEmpty then .returnedNone
  else
    match sheetLookup with
    | none => .returnedNone
    | some sh =>
        let urls := getItemUrls sh
        if urls.isEmpty then .returnedNone
        else
          match getTrackingCall with
          | .error e => .raised e
          | .ok trackings =>
              if !driverOk then .returnedNone
              else
                let k := min urls.length trackings.length
                let rows := itemPriceCellRows sh.col3 k 4
                let triples := (urls.zip (trackings.zip rows)).map (fun x => (x.1, x.2.1, x.2.2))
                match scrapeLoop scrape triples [] [] with
                | .ok (writes, errs) => .completed writes errs
                | .error e => .raised e

/-! # Theorems -/

/-- Helper: `sanitizeURL` computes `takeWhile (· ≠ '?')`. -/
lemma sanitizeURL_eq_takeWhile (u : PyStr) :
    sanitizeURL u = u.takeWhile (fun c => c ≠ '?') := by
  induction u with
  | nil => rfl
  | cons c cs ih =>
      unfold sanitizeURL at ih ⊢
      show (match (if c = '?' then some 0 else (strFind cs '?').map (· + 1)) with
            | some index => List.take index (c :: cs)
            | none => c :: cs) = _
      by_cases hc : c = '?'
      · subst hc
        rw [if_pos rfl, List.takeWhile_cons, if_neg (by simp)]
        rfl
      · rw [if_neg hc]
        cases hfi : strFind cs '?' with
        | none =>
            rw [hfi] at ih
            simp only [Option.map_none']
            rw [List.takeWhile_cons, if_pos (by simp [hc])]
            exact congrArg (List.cons c) ih
        | some i =>
            rw [hfi] at ih
            simp only [Option.map_some']
            rw [List.takeWhile_cons, if_pos (by simp [hc])]
            show List.take (i + 1) (c :: cs) = _
            rw [List.take_succ_cons]
            exact congrArg (List.cons c) ih

/-- Claim C10: `sanitizeURL` returns the prefix of the string strictly
before its first `'?'`, it leaves strings without `'?'` unchanged, and
it is idempotent. -/
theorem claim10_sanitizeURL_first_query_and_idempotent (u : PyStr) :
    sanitizeURL u = u.takeWhile (fun c => c ≠ '?') ∧
    ('?' ∉ u → sanitizeURL u = u) ∧
    sanitizeURL (sanitizeURL u) = sanitizeURL u := by
  refine ⟨sanitizeURL_eq_takeWhile u, ?_, ?_⟩
  · intro hq
    rw [sanitizeURL_eq_takeWhile]
    apply List.takeWhile_eq_self_iff.mpr
    intro c hc
    simp only [decide_eq_true_eq]
    intro h
    exact hq (h ▸ hc)
  · rw [sanitizeURL_eq_takeWhile, sanitizeURL_eq_takeWhile, List.takeWhile_idem]

/-- Witness for C10 at a concrete url with a query string. -/
theorem claim10_witness :
    ('?' ∉ ("https://e.com/item/1.html".toList : PyStr)) ∧
    sanitizeURL "https://e.com/item/1.html".toList = "https://e.com/item/1.html".toList := by
  refine ⟨by decide, ?_⟩
  exact (claim10_sanitizeURL_first_query_and_idempotent "https://e.com/item/1.html".toList).2.1
    (by decide)

/-- Helper: on a well-formed numeral, the embedded `float` returns the
numeral's value. -/
lemma pyFloat_wellFormed (t : PyStr) (h : wellFormedNumeral t = true) :
    pyFloat t = .ok (numeralValue t) := by
  simp only [wellFormedNumeral, Bool.and_eq_true, decide_eq_true_eq] at h
  obtain ⟨⟨hdig, hall⟩, hcount⟩ := h
  have h1 : ¬(t.any (fun c => !(c.isDigit || c = '.')) = true) := by
    intro hcon
    obtain ⟨c, hc, hcp⟩ := List.any_eq_true.mp hcon
    have := List.all_eq_true.mp hall c hc
    simp only [Bool.not_eq_true'] at hcp
    rw [hcp] at this
    exact Bool.false_ne_true this
  have h2 : ¬((!t.any Char.isDigit) = true) := by
    simp only [Bool.not_eq_true', Bool.not_eq_false]
    exact hdig
  have h3 : ¬(1 < t.count '.') := by omega
  rw [pyFloat, if_neg h1, if_neg h2, if_neg h3]

/-- Claim C3: when the first maximal run of digits, periods and commas
in a price string is a well-formed decimal numeral,
`convertPriceToFloat` returns its value; on a string with no digit,
period or comma, the `re.search` result is `None` and the call fails
with `AttributeError`. -/
theorem claim3_convertPriceToFloat (s : PyStr) :
    (∀ t, firstPriceRun s = some t → wellFormedNumeral t = true →
      convertPriceToFloat s = .ok (numeralValue t)) ∧
    ((∀ c ∈ s, priceChar c = false) → convertPriceToFloat s = .error .attributeError) := by
  constructor
  · intro t hrun hwf
    rw [convertPriceToFloat, hrun]
    exact pyFloat_wellFormed t hwf
  · intro hnone
    have hdrop : s.dropWhile (fun c => !priceChar c) = [] := by
      apply List.dropWhile_eq_nil_iff.mpr
      intro c hc
      rw [hnone c hc]
      rfl
    rw [convertPriceToFloat, firstPriceRun, hdrop]

/-- Witness for C3 at the concrete price strings `'US $12.34'` (a
well-formed numeral run) and `'abc'` (no digit, period or comma). -/
theorem claim3_witness :
    convertPriceToFloat "US $12.34".toList = .ok (numeralValue "12.34".toList) ∧
    convertPriceToFloat "abc".toList = .error .attributeError := by
  constructor
  · exact (claim3_convertPriceToFloat "US $12.34".toList).1 "12.34".toList (by decide) (by decide)
  · exact (claim3_convertPriceToFloat "abc".toList).2 (by decide)

/-- Claim C4 (the code at the failing input): whenever `find_element`
raises `NoSuchElementException`, `getElement` raises `TypeError` for
every locator method — not the per-method navigation exception the
claim names — because the first dict entry evaluates
`InvalidXpathNavigationException(url=..., ...)` and that `__init__`
(src/scraper/exceptions.py, line 35) accepts no `url` keyword; the
`InvalidIdNavigationException` and `InvalidTagNameNavigationException`
entries would moreover raise `NameError`, as no such classes are
defined.  When the element is found it is returned unchanged. -/
theorem claim4_getElement_raises_typeError :
    (∀ m : By, getElement (none : Option Unit) m = .error .typeError) ∧
    (getElement (none : Option Unit) By.className ≠ .error .invalidClassNameNav) ∧
    (constructExc "InvalidIdNavigationException" ["url", "id", "elementName"] = .error .nameError) ∧
    (∀ (α : Type) (e : α) (m : By), getElement (some e) m = .ok e) := by
  refine ⟨fun m => by cases m <;> rfl, ?_, rfl, fun α e m => rfl⟩
  rw [show getElement (none : Option Unit) By.className = Except.error PyExc.typeError from rfl]
  simp

/-- Claim C7: `closePopups` handles the cookies, notifications and
welcome popups in dict order with a 3-second wait each; it raises
`ElementClickInterceptedException` exactly when some popup's click is
intercepted, and skips absent, timed-out or non-interactable popups
without raising. -/
theorem claim7_closePopups (b : Popup → PopupBehavior) :
    closePopups b =
      (if b .cookies = .intercepted ∨ b .notifications = .intercepted ∨
          b .welcome = .intercepted
       then .error .elementClickIntercepted else .ok ()) ∧
    closePopupsWaitSeconds = 3 := by
  constructor
  · rcases hc : b .cookies <;> rcases hn : b .notifications <;> rcases hw : b .welcome <;>
      simp [closePopups, closeOnePopup, hc, hn, hw, Bind.bind, Except.bind]
  · rfl

/-- A page with every element the scraper needs present and well
loaded, no prices set: the base for concrete test pages. -/
def basePage : Page :=
  { notFoundPage := false, nextMessageContent := false, dynamicShippingLoaded := true,
    dynamicShippingUnreachable := false, skuListCount := 0, cometBtnLoaded := true,
    shippingMarkLoaded := true, shippingOptionTexts := [], uniformBannerBoxPrice := none,
    productPriceValue := none, dynamicShippingText := none }

/-- The page refuting C5: a `uniform-banner-box-price` element exists
with empty text, while a `product-price-value` element exists with the
non-empty text `'5.00'`. -/
def pageC5 : Page :=
  { basePage with uniformBannerBoxPrice := some [], productPriceValue := some "5.00".toList }

/-- Counterexample to C5 as stated: on `pageC5` an element of one of
the two classes (`product-price-value`) yields the non-empty text
`'5.00'`, yet `getItemPriceString` raises `ItemPriceNotFoundException`,
because the loop breaks at the first element found
(`uniform-banner-box-price`, empty text) and never tries the next
class. -/
theorem claim5_counterexample :
    ¬ (getItemPriceString pageC5 = Except.error PyExc.itemPriceNotFound ↔
       ¬ ∃ t : PyStr, (pageC5.uniformBannerBoxPrice = some t ∨
                       pageC5.productPriceValue = some t) ∧ t ≠ []) := by
  intro h
  exact (h.mp rfl) ⟨"5.00".toList, Or.inr rfl, by decide⟩

/-- Claim C5, amended: `getItemPriceString` raises
`ItemPriceNotFoundException` iff the text of the FIRST element found —
`uniform-banner-box-price` when present, else `product-price-value` —
is empty, or neither class has an element; otherwise it returns that
first found text.  `getShippingPriceString` raises
`ShippingPriceNotFoundException` iff the `dynamic-shipping` element is
absent or its text is empty, as the claim stated. -/
theorem claim5_first_found_text (p : Page) :
    (getItemPriceString p = .error .itemPriceNotFound ↔
      (p.uniformBannerBoxPrice = some [] ∨
       (p.uniformBannerBoxPrice = none ∧
        (p.productPriceValue = none ∨ p.productPriceValue = some [])))) ∧
    (∀ t, t ≠ [] → p.uniformBannerBoxPrice = some t → getItemPriceString p = .ok t) ∧
    (∀ t, t ≠ [] → p.uniformBannerBoxPrice = none → p.productPriceValue = some t →
      getItemPriceString p = .ok t) ∧
    (getShippingPriceString p = .error .shippingPriceNotFound ↔
      (p.dynamicShippingText = none ∨ p.dynamicShippingText = some [])) := by
  refine ⟨?_, ?_, ?_, ?_⟩
  · rcases hu : p.uniformBannerBoxPrice with _ | t
    · rcases hp : p.productPriceValue with _ | t
      · simp [getItemPriceString, hu, hp, raiseExc, constructExc, exceptionsModule]
      · by_cases ht : t = [] <;>
          simp [getItemPriceString, hu, hp, ht, raiseExc, constructExc, exceptionsModule]
    · by_cases ht : t = [] <;>
        simp [getItemPriceString, hu, ht, raiseExc, constructExc, exceptionsModule]
  · intro t ht hu
    simp [getItemPriceString, hu, ht]
  · intro t ht hu hp
    simp [getItemPriceString, hu, hp, ht]
  · rcases hd : p.dynamicShippingText with _ | t
    · simp [getShippingPriceString, hd, raiseExc, constructExc, exceptionsModule]
    · by_cases ht : t = [] <;>
        simp [getShippingPriceString, hd, ht, raiseExc, constructExc, exceptionsModule]

/-- A page whose first price class has the non-empty text `'4.12'` and
whose shipping element is absent. -/
def pageW5 : Page := { basePage with uniformBannerBoxPrice := some "4.12".toList }

/-- Witness for the amended C5 at `pageW5`. -/
theorem claim5_witness :
    getItemPriceString pageW5 = .ok "4.12".toList ∧
    getShippingPriceString pageW5 = .error .shippingPriceNotFound := by
  constructor
  · exact (claim5_first_found_text pageW5).2.1 "4.12".toList (by decide) rfl
  · exact (claim5_first_found_text pageW5).2.2.2.mpr (Or.inl rfl)

/-- Helper: filtering against prices padded with empty strings keeps
the whole unmatched tail. -/
lemma keepEmptyPrice_padTo {α : Type} (us : List α) : ∀ ps : List PyStr,
    keepEmptyPrice us (padTo ps us.length []) = keepEmptyPrice us ps ++ us.drop ps.length := by
  induction us with
  | nil => intro ps; simp [keepEmptyPrice, padTo]
  | cons u us ih =>
      intro ps
      cases ps with
      | nil =>
          have h0 := ih []
          simp only [padTo, List.nil_append, List.length_nil, Nat.sub_zero,
            keepEmptyPrice, List.zip_nil_right, List.filterMap_nil, List.drop_zero] at h0 ⊢
          simp only [List.length_cons]
          rw [List.replicate_succ]
          simpa [keepEmptyPrice, List.filterMap_cons] using congrArg (List.cons u) h0
      | cons p ps =>
          have hpad : padTo (p :: ps) (us.length + 1) [] = p :: padTo ps us.length [] := by
            simp [padTo, List.replicate]
          simp only [List.length_cons]
          rw [hpad]
          have ihps := ih ps
          simp only [keepEmptyPrice] at ihps ⊢
          by_cases hp : p = [] <;>
            simp only [List.zip_cons_cons, List.filterMap_cons, hp, if_pos, if_neg,
              List.drop_succ_cons, List.length_cons] <;>
            simp [hp, ihps]

/-- Helper: two same-length lists filtered against the same price list
keep the same number of entries. -/
lemma keepEmptyPrice_length_eq {α β : Type} (as : List α) : ∀ (bs : List β) (ps : List PyStr),
    as.length = bs.length →
    (keepEmptyPrice as ps).length = (keepEmptyPrice bs ps).length := by
  induction as with
  | nil =>
      intro bs ps h
      cases bs with
      | nil => rfl
      | cons b bs => simp at h
  | cons a as ih =>
      intro bs ps h
      cases bs with
      | nil => simp at h
      | cons b bs =>
          cases ps with
          | nil => rfl
          | cons p ps =>
              have h' : as.length = bs.length := by simpa using h
              by_cases hp : p = [] <;>
                simp [keepEmptyPrice, List.filterMap_cons, hp] <;>
                simpa [keepEmptyPrice] using ih bs ps h'

/-- Helper: length of a padded list. -/
lemma padTo_length {α : Type} (l : List α) (n : ℕ) (x : α) :
    (padTo l n x).length = max l.length n := by
  simp [padTo]
  omega

/-- The sheet refuting C9: one url row (row 4), but the tracking and
price columns both extend to row 5, with both price cells empty. -/
def sheetC9 : Sheet :=
  ⟨[[], [], [], "u1".toList], [[], [], [], "x".toList, "y".toList], [[], [], [], [], []]⟩

/-- Counterexample to C9 as stated: on `sheetC9` the `urls` list of
`getItemUrlsAndTracking` has one element but its `trackings` list has
two, because the tracking column is longer than the URL column and the
extra row also has an empty price. -/
theorem claim9_counterexample :
    (getItemUrlsAndTracking sheetC9).1.length ≠ (getItemUrlsAndTracking sheetC9).2.length := by
  decide

/-- Claim C9, amended: the `urls` list of `getItemUrlsAndTracking`
always equals the result of `getItemUrls`; the `urls` and `trackings`
lists have equal length provided the tracking column (below the three
header rows) is no longer than the URL column. -/
theorem claim9_urls_agree_and_lengths (sh : Sheet) :
    (getItemUrlsAndTracking sh).1 = getItemUrls sh ∧
    ((sh.col2.drop 3).length ≤ (sh.col1.drop 3).length →
      (getItemUrlsAndTracking sh).1.length = (getItemUrlsAndTracking sh).2.length) := by
  constructor
  · simpa [getItemUrlsAndTracking, getItemUrls] using
      keepEmptyPrice_padTo (sh.col1.drop 3) (sh.col3.drop 3)
  · intro hle
    apply keepEmptyPrice_length_eq
    rw [padTo_length]
    simp only [List.length_map]
    omega

/-- A sheet whose tracking column is shorter than its URL column. -/
def sheetW9 : Sheet :=
  ⟨[[], [], [], "u1".toList, "u2".toList], [[], [], [], "x".toList], [[], [], [], "9.99".toList]⟩

/-- Witness for the amended C9 at `sheetW9`. -/
theorem claim9_witness :
    (getItemUrlsAndTracking sheetW9).1 = getItemUrls sheetW9 ∧
    (getItemUrlsAndTracking sheetW9).1.length = (getItemUrlsAndTracking sheetW9).2.length :=
  ⟨(claim9_urls_agree_and_lengths sheetW9).1,
   (claim9_urls_agree_and_lengths sheetW9).2 (by decide)⟩

/-- Helper: whenever the "item unavailable" message is absent,
`checkAvailability` raises `TypeError` — `utils.getElement` raises
`TypeError` (not `InvalidClassNameNavigationException`, see C4), which
the `except InvalidClassNameNavigationException` handler does not
catch. -/
lemma checkAvailability_no_message (p : Page) (h : p.nextMessageContent = false) :
    checkAvailability p = .error .typeError := by
  unfold checkAvailability
  rw [h]
  rfl

/-- Claim C6 (the code at the failing inputs): for every page that
passes both availability checks — which is where the claimed price
computation would run — `scrapeURLBody` raises `TypeError` inside
`checkAvailability` instead, so the item/shipping price formulas of
lines 73-88 are unreachable and no prices are ever returned by that
path. -/
theorem claim6_price_formulas_unreachable (p : Page) (tr : Bool)
    (hnf : p.notFoundPage = false) (hnm : p.nextMessageContent = false) :
    scrapeURLBody p tr = .error .typeError := by
  unfold scrapeURLBody
  rw [checkAvailability_no_message p hnm]
  simp [checkPageAvailability, hnf, Bind.bind, Except.bind, Pure.pure, Except.pure]

/-- A fully loaded, available item page with concrete price texts. -/
def pageAvail : Page :=
  { basePage with uniformBannerBoxPrice := some "€ 4,12".toList,
                  dynamicShippingText := some "Free Shipping".toList }

/-- Witness for C6 at a concrete available page with prices present. -/
theorem claim6_witness : scrapeURLBody pageAvail false = .error .typeError :=
  claim6_price_formulas_unreachable pageAvail false rfl rfl

/-- The page on which C8 fails: the item cannot be shipped
(`dynamic-shipping-unreachable` present), no "item unavailable"
message. -/
def pageUnreachable : Page := { basePage with dynamicShippingUnreachable := true }

/-- A removed product page. -/
def pageNotFound : Page := { basePage with notFoundPage := true }

/-- A page with the "item unavailable" message. -/
def pageMsg : Page := { basePage with nextMessageContent := true }

/-- Claim C8 (two cases hold, the third fails): `scrapeURL` returns
`(0, 0)` when the page is removed, and when the "item unavailable"
message is present; but when only `dynamic-shipping-unreachable` marks
the item unshippable, it raises `TypeError` (from the broken exception
constructors reached through `utils.getElement`) instead of returning
`(0, 0)`. -/
theorem claim8_unavailable_returns_zero :
    (∀ (p : Page) (tr : Bool), p.notFoundPage = true → scrapeURLBody p tr = .ok (0, 0)) ∧
    (∀ (p : Page) (tr : Bool), p.notFoundPage = false → p.nextMessageContent = true →
      scrapeURLBody p tr = .ok (0, 0)) ∧
    pageUnreachable.dynamicShippingUnreachable = true ∧
    scrapeURLBody pageUnreachable false = .error .typeError := by
  refine ⟨?_, ?_, rfl, rfl⟩
  · intro p tr h
    unfold scrapeURLBody
    simp [checkPageAvailability, h, Pure.pure, Except.pure]
  · intro p tr hnf hnm
    have hav : checkAvailability p = .ok false := by
      unfold checkAvailability
      rw [hnm]
      rfl
    unfold scrapeURLBody
    rw [hav]
    simp [checkPageAvailability, hnf, Bind.bind, Except.bind, Pure.pure, Except.pure]

/-- Witness for C8's hypotheses at concrete pages. -/
theorem claim8_witness :
    scrapeURLBody pageNotFound true = .ok (0, 0) ∧
    scrapeURLBody pageMsg false = .ok (0, 0) :=
  ⟨claim8_unavailable_returns_zero.1 pageNotFound true rfl,
   claim8_unavailable_returns_zero.2.1 pageMsg false rfl rfl⟩

/-- An attempt function modelling a connection that fails on every try. -/
def allConnError : ℕ → AttemptOutcome := fun _ => .connError

/-- An attempt function that raises `ConnectionError` six consecutive
times (one more than `RETRIES`) and then succeeds with prices `(1, 2)`. -/
def sixConnThenOk : ℕ → AttemptOutcome := fun i =>
  if i < 6 then .connError else .result (.ok (1, 2))

/-- Claim C2 (the code at the failing input): the `retryCount >= RETRIES`
test only logs, so when every attempt raises `ConnectionError` the
retry recursion never terminates — no amount of fuel completes it, from
any starting `retryCount`; moreover a run with six consecutive
connection errors (more than `RETRIES = 5`) still retries through all
of them and then succeeds, resetting the counter to `0`. -/
theorem claim2_retries_unbounded :
    (∀ r i fuel, scrapeURLWithRetries allConnError r i fuel = none) ∧
    scrapeURLWithRetries sixConnThenOk 0 0 7 = some (.ok (1, 2), 0) ∧
    RETRIES = 5 := by
  refine ⟨?_, rfl, rfl⟩
  intro r i fuel
  induction fuel generalizing r i with
  | zero => rfl
  | succ n ih => simp [scrapeURLWithRetries, allConnError, ih]

/-- The sheet for C1: one pending item url in row 4, nothing else. -/
def sheetC1 : Sheet := ⟨[[], [], [], "https://www.aliexpress.com/item/1.html".toList], [], []⟩

/-- Claim C1 (the code at the failing input): for every entered sheet
url and every worksheet with at least one pending item url, `on_click`
raises `AttributeError` at `sh.getTracking()` — `SheetManager` defines
no such method — before the scraping loop can run, for any driver state
and any scraper behavior. -/
theorem claim1_on_click_attribute_error (su : PyStr) (sh : Sheet) (dok : Bool)
    (scrape : PyStr → Bool → Except PyExc (ℚ × ℚ))
    (hsu : su.isEmpty = false) (hurls : (getItemUrls sh).isEmpty = false) :
    on_click su (some sh) dok scrape = .raised .attributeError := by
  have hgt : getTrackingCall = Except.error PyExc.attributeError := rfl
  simp [on_click, hsu, hurls, hgt]

/-- Witness for C1 at a concrete sheet url and worksheet, with a
scraper that would succeed on every url. -/
theorem claim1_witness :
    on_click "https://docs.google.com/spreadsheets/d/1".toList (some sheetC1) true
      (fun _ _ => .ok (1, 1)) = .raised .attributeError :=
  claim1_on_click_attribute_error _ sheetC1 true _ (by decide) (by decide)

end AliExpress
